import Mathlib

/-!
Verification development for the database-analysis-report migration tool.

We give a shallow embedding of the column-mapping transformation pipeline:
the value-transformation engine (src/services/transformers.py), the column
analyzer (src/services/ml_mapper.py), the read-query generator
(src/views/migration_engine.py) and the configuration store
(src/database.py), and prove or refute the specified properties.

Modelling conventions:
* Python scalar values are modelled by the inductive type `Value`
  (None, str, int, float, bool).  Python floats are modelled as exact
  rationals; none of the verified properties depend on binary rounding.
* Strings are ASCII in the model: the whitespace set, the digit set and
  case conversion are the ASCII ones.
* Python dicts keyed by strings are modelled as association lists with
  dict-update (replace on existing key, append otherwise) semantics.
* sqlite is modelled to the extent exercised by the code: statements
  executed on a connection are pending until commit; closing a
  connection without committing discards pending statements.  The
  `PRAGMA foreign_keys` flag is OFF, its sqlite default, because the
  code never issues the pragma; declared `ON DELETE CASCADE` clauses
  are therefore not enforced.
-/

namespace DbReport

/-- Python scalar values flowing through the transformation engine. -/
inductive Value where
  | vnull : Value
  | vstr (s : String) : Value
  | vint (n : Int) : Value
  | vfloat (q : ℚ) : Value
  | vbool (b : Bool) : Value
deriving DecidableEq, Repr

/-- The ASCII whitespace characters stripped by Python `str.strip()`
and matched by the regex class `\s`. -/
def pyIsSpaceChar (c : Char) : Bool :=
  c = ' ' || c = '\t' || c = '\n' || c = '\r' || c = Char.ofNat 11 || c = Char.ofNat 12

/-- `str.strip()` on a character list: drop whitespace from both ends. -/
def stripChars (l : List Char) : List Char :=
  ((l.dropWhile pyIsSpaceChar).reverse.dropWhile pyIsSpaceChar).reverse

/-- Python `str.strip()`. -/
def pyStrip (s : String) : String :=
  String.mk (stripChars s.data)

/-- Python `str(value)`.  Floats only ever enter the pipeline through
numeric transformers, whose outputs are not re-stringified by any code
modelled here, so only the integral rendering is needed; we render a
non-integral rational as its reduced fraction. -/
def pyStr : Value → String
  | Value.vnull => "None"
  | Value.vstr s => s
  | Value.vint n => toString n
  | Value.vfloat q =>
      if q.den = 1 then toString q.num ++ ".0"
      else toString q.num ++ "/" ++ toString q.den
  | Value.vbool b => if b then "True" else "False"

/-- Python truthiness of the modelled scalar values. -/
def pyTruthy : Value → Bool
  | Value.vnull => false
  | Value.vstr s => s ≠ ""
  | Value.vint n => n ≠ 0
  | Value.vfloat q => q ≠ 0
  | Value.vbool b => b

/-- One maximal run of ASCII digits, with the single underscores that
Python numeric literals and `int()`/`float()` accept strictly between
digits (PEP 515): an underscore is consumed only when digits have
already been read (the accumulator holds only the digits read so far,
so nonempty means the previous character was a digit) and a digit
follows; a leading, trailing or doubled underscore is left unconsumed,
making the surrounding parse fail.  Returns the digits collected and
the unconsumed remainder. -/
def digitRun : List Char → List Char → List Char × List Char
  | acc, [] => (acc, [])
  | acc, c :: rest =>
      if c.isDigit then digitRun (acc ++ [c]) rest
      else if c = '_' ∧ acc ≠ [] then
        match rest with
        | d :: rest2 =>
            if d.isDigit then digitRun (acc ++ [d]) rest2
            else (acc, c :: rest)
        | [] => (acc, [c])
      else (acc, c :: rest)

/-- Numeric value of a list of ASCII digits. -/
def digitsToNat (l : List Char) : Nat :=
  l.foldl (fun acc c => acc * 10 + (c.toNat - '0'.toNat)) 0

/-- Python `int(string)`: strip whitespace, optional sign, then a
nonempty digit run (underscores between digits allowed) consuming the
whole remainder. -/
def pyInt (s : String) : Option Int :=
  let l := stripChars s.data
  let (sign, body) :=
    match l with
    | '+' :: rest => ((1 : Int), rest)
    | '-' :: rest => ((-1 : Int), rest)
    | _ => ((1 : Int), l)
  let (ds, rest) := digitRun [] body
  if ds ≠ [] ∧ rest = [] then some (sign * (digitsToNat ds : Int)) else none

/-- Optional exponent suffix of a Python float literal. -/
def pyFloatExp : List Char → Option (Int × List Char)
  | 'e' :: rest => pyFloatExpBody rest
  | 'E' :: rest => pyFloatExpBody rest
  | l => some (0, l)
where
  pyFloatExpBody (l : List Char) : Option (Int × List Char) :=
    let (sign, body) :=
      match l with
      | '+' :: rest => ((1 : Int), rest)
      | '-' :: rest => ((-1 : Int), rest)
      | _ => ((1 : Int), l)
    let (ds, rest) := digitRun [] body
    if ds ≠ [] then some (sign * (digitsToNat ds : Int), rest) else none

/-- The rational `sign * (i + f / 10 ^ flen) * 10 ^ e`, assembled as a
single exact quotient of integers (rationals built this way evaluate
by kernel reduction). -/
def decimalToRat (sign : Int) (i f : Nat) (flen : Nat) (e : Int) : ℚ :=
  let num : Int := sign * ((i : Int) * 10 ^ flen + (f : Int))
  if 0 ≤ e then Rat.divInt (num * 10 ^ e.toNat) ((10 : Int) ^ flen)
  else Rat.divInt num ((10 : Int) ^ flen * 10 ^ (-e).toNat)

/-- Python `float(string)` on the decimal forms `digits`,
`digits.digits?`, `.digits`, each with an optional exponent; the
special spellings inf and nan are outside the modelled value domain. -/
def pyFloatParse (s : String) : Option ℚ :=
  let l := stripChars s.data
  let (sign, body) :=
    match l with
    | '+' :: rest => ((1 : Int), rest)
    | '-' :: rest => ((-1 : Int), rest)
    | _ => ((1 : Int), l)
  let (ipart, rest) := digitRun [] body
  match rest with
  | '.' :: rest2 =>
      let (fpart, rest3) := digitRun [] rest2
      if ipart = [] ∧ fpart = [] then none
      else
        match pyFloatExp rest3 with
        | some (e, []) =>
            some (decimalToRat sign (digitsToNat ipart) (digitsToNat fpart)
              fpart.length e)
        | _ => none
  | _ =>
      if ipart = [] then none
      else
        match pyFloatExp rest with
        | some (e, []) => some (decimalToRat sign (digitsToNat ipart) 0 0 e)
        | _ => none

/-- Python `float(value)` over the modelled value domain; `none` is the
raised `ValueError`/`TypeError`. -/
def pyFloat : Value → Option ℚ
  | Value.vnull => none
  | Value.vstr s => pyFloatParse s
  | Value.vint n => some (Rat.divInt n 1)
  | Value.vfloat q => some q
  | Value.vbool b => some (if b then 1 else 0)

/-- Truncation toward zero, the behaviour of Python `int(float)`. -/
def ratTruncate (q : ℚ) : Int :=
  q.num.tdiv (q.den : Int)

/-- Python `str.split(sep)` for a one-character separator: splitting
the empty string gives one empty part, and adjacent separators give
empty parts. -/
def splitOnChar (sep : Char) : List Char → List (List Char)
  | [] => [[]]
  | c :: rest =>
      let r := splitOnChar sep rest
      if c = sep then [] :: r
      else
        match r with
        | h :: t => (c :: h) :: t
        | [] => [[c]]

/-- ASCII lower-casing, the effect of Python `str.lower()` on the
modelled character set. -/
def charLower (c : Char) : Char :=
  if 'A' ≤ c ∧ c ≤ 'Z' then Char.ofNat (c.toNat + 32) else c

def strLower (s : String) : String :=
  String.mk (s.data.map charLower)

/-- ASCII upper-casing (Python `str.upper()`). -/
def charUpper (c : Char) : Char :=
  if 'a' ≤ c ∧ c ≤ 'z' then Char.ofNat (c.toNat - 32) else c

def strUpper (s : String) : String :=
  String.mk (s.data.map charUpper)

/-- Python `s.startswith(c)` for a single character. -/
def headIs (c : Char) (s : String) : Bool :=
  match s.data with
  | x :: _ => x = c
  | [] => false

/-- Left-pad with zeros to the given width. -/
def padZeros (w : Nat) (s : String) : String :=
  if s.length < w then String.mk (List.replicate (w - s.length) '0') ++ s else s

/-- Python `f"{n:0wd}"`: zero-padded to total width `w`, the sign
occupying one position of the width. -/
def pyFmtInt (w : Nat) (n : Int) : String :=
  if n < 0 then "-" ++ padZeros (w - 1) (toString (-n)) else padZeros w (toString n)

/-- `_buddhist_to_iso` from src/services/transformers.py: trim, split on
hyphens; with exactly three parts convert each with `int()`, subtract
543 from the year and re-render zero-padded; an `int()` failure is
caught and yields the original value; any other part count yields the
trimmed string. -/
def buddhist_to_iso (value : Value) : Value :=
  let value_str := pyStrip (pyStr value)
  let parts := (splitOnChar '-' value_str.data).map String.mk
  if parts.length = 3 then
    match pyInt (parts.getD 0 ""), pyInt (parts.getD 1 ""), pyInt (parts.getD 2 "") with
    | some y, some m, some d =>
        Value.vstr (pyFmtInt 4 (y - 543) ++ "-" ++ pyFmtInt 2 m ++ "-" ++ pyFmtInt 2 d)
    | _, _, _ => value
  else Value.vstr value_str

/-- One maximal run of plain ASCII digits (the regex `\d+` used by
`strptime` fields and JSON numbers). -/
def plainDigitRun : List Char → List Char × List Char
  | [] => ([], [])
  | c :: rest =>
      if c.isDigit then
        let (ds, r) := plainDigitRun rest
        (c :: ds, r)
      else ([], c :: rest)

/-- A numeric `strptime` field of between `lo` and `hi` digits. -/
def parseNumField (lo hi : Nat) (l : List Char) : Option (Nat × List Char) :=
  let (ds, rest) := plainDigitRun l
  if lo ≤ ds.length ∧ ds.length ≤ hi then some (digitsToNat ds, rest) else none

/-- Number of days in a month of the proleptic Gregorian calendar used
by Python `datetime`. -/
def daysInMonth (y m : Nat) : Nat :=
  if m = 2 then (if (y % 4 = 0 ∧ y % 100 ≠ 0) ∨ y % 400 = 0 then 29 else 28)
  else if m = 4 ∨ m = 6 ∨ m = 9 ∨ m = 11 then 30 else 31

/-- The range checks `datetime(year, month, day)` performs. -/
def dateValid (y m d : Nat) : Bool :=
  1 ≤ y ∧ y ≤ 9999 ∧ 1 ≤ m ∧ m ≤ 12 ∧ 1 ≤ d ∧ d ≤ daysInMonth y m

/-- Three numeric fields separated by `sep`, consuming the whole input:
the shape shared by the five `strptime` layouts the code tries. -/
def parseThreeFields (w1 w2 w3 : Nat × Nat) (sep : Char) (l : List Char) :
    Option (Nat × Nat × Nat) :=
  match parseNumField w1.1 w1.2 l with
  | some (x, s1 :: r1) =>
      if s1 = sep then
        match parseNumField w2.1 w2.2 r1 with
        | some (y, s2 :: r2) =>
            if s2 = sep then
              match parseNumField w3.1 w3.2 r2 with
              | some (z, []) => some (x, y, z)
              | _ => none
            else none
        | _ => none
      else none
  | _ => none

/-- The five date layouts of `_eng_date_to_iso`, in source order. -/
inductive DateFmt where
  | mdySlash | mdyDash | dmySlash | dmyDash | ymdSlash
deriving DecidableEq, Repr

/-- `datetime.strptime` against one layout, returning a validated
`(year, month, day)`: month and day fields accept 1-2 digits, the year
field 1-4 digits, and the resulting date must be constructible. -/
def strptimeFmt : DateFmt → List Char → Option (Nat × Nat × Nat)
  | DateFmt.mdySlash, l =>
      match parseThreeFields (1, 2) (1, 2) (1, 4) '/' l with
      | some (m, d, y) => if dateValid y m d then some (y, m, d) else none
      | none => none
  | DateFmt.mdyDash, l =>
      match parseThreeFields (1, 2) (1, 2) (1, 4) '-' l with
      | some (m, d, y) => if dateValid y m d then some (y, m, d) else none
      | none => none
  | DateFmt.dmySlash, l =>
      match parseThreeFields (1, 2) (1, 2) (1, 4) '/' l with
      | some (d, m, y) => if dateValid y m d then some (y, m, d) else none
      | none => none
  | DateFmt.dmyDash, l =>
      match parseThreeFields (1, 2) (1, 2) (1, 4) '-' l with
      | some (d, m, y) => if dateValid y m d then some (y, m, d) else none
      | none => none
  | DateFmt.ymdSlash, l =>
      match parseThreeFields (1, 4) (1, 2) (1, 2) '/' l with
      | some (y, m, d) => if dateValid y m d then some (y, m, d) else none
      | none => none

/-- `_eng_date_to_iso`: try the five layouts in order; the first that
parses wins and is rendered as ISO; otherwise the trimmed string is
returned. -/
def eng_date_to_iso (value : Value) : Value :=
  let value_str := pyStrip (pyStr value)
  match [DateFmt.mdySlash, DateFmt.mdyDash, DateFmt.dmySlash, DateFmt.dmyDash,
         DateFmt.ymdSlash].findSome? (fun f => strptimeFmt f value_str.data) with
  | some (y, m, d) =>
      Value.vstr (pyFmtInt 4 (y : Int) ++ "-" ++ pyFmtInt 2 (m : Int) ++ "-" ++
        pyFmtInt 2 (d : Int))
  | none => Value.vstr value_str

/-- `_format_phone`: keep the digits; group a 10-digit number as
XXX-XXX-XXXX, an 11-digit one as +D DDD-DDD-DDDD, anything else is the
bare digit string. -/
def format_phone (value : Value) : Value :=
  let digits := (pyStr value).data.filter Char.isDigit
  if digits.length = 10 then
    Value.vstr (String.mk (digits.take 3) ++ "-" ++ String.mk ((digits.drop 3).take 3)
      ++ "-" ++ String.mk (digits.drop 6))
  else if digits.length = 11 then
    Value.vstr ("+" ++ String.mk (digits.take 1) ++ " " ++ String.mk ((digits.drop 1).take 3)
      ++ "-" ++ String.mk ((digits.drop 4).take 3) ++ "-" ++ String.mk (digits.drop 7))
  else Value.vstr (String.mk digits)

/-- `_map_gender`: trimmed upper-cased lookup in the fixed table, the
unmatched input returned trimmed and upper-cased. -/
def map_gender (value : Value) : Value :=
  let value_str := strUpper (pyStrip (pyStr value))
  let gender_map : List (String × String) :=
    [("M", "M"), ("MALE", "M"), ("1", "M"),
     ("F", "F"), ("FEMALE", "F"), ("2", "F"),
     ("O", "O"), ("OTHER", "O"), ("3", "O")]
  match gender_map.lookup value_str with
  | some g => Value.vstr g
  | none => Value.vstr value_str

/-- Exponent suffix of a JSON number. -/
def jsonExp : List Char → Option (Int × List Char)
  | 'e' :: rest => jsonExpBody rest
  | 'E' :: rest => jsonExpBody rest
  | l => some (0, l)
where
  jsonExpBody (l : List Char) : Option (Int × List Char) :=
    let (sign, body) :=
      match l with
      | '+' :: rest => ((1 : Int), rest)
      | '-' :: rest => ((-1 : Int), rest)
      | _ => ((1 : Int), l)
    let (ds, rest) := plainDigitRun body
    if ds ≠ [] then some (sign * (digitsToNat ds : Int), rest) else none

/-- A JSON number: `-?(0|[1-9][0-9]*)(.digits)?(exp)?`; an integer
literal loads as a Python int, anything else as a float. -/
def jsonNumberParse (l : List Char) : Option Value :=
  let (neg, body) := match l with | '-' :: r => (true, r) | _ => (false, l)
  let (ids, rest) := plainDigitRun body
  if ids = [] then none
  else if 1 < ids.length ∧ ids.headD '0' = '0' then none
  else
    let sign : Int := if neg then -1 else 1
    let ival : Int := sign * (digitsToNat ids : Int)
    match rest with
    | [] => some (Value.vint ival)
    | '.' :: r2 =>
        let (fds, rest3) := plainDigitRun r2
        if fds = [] then none
        else
          match jsonExp rest3 with
          | some (e, []) =>
              some (Value.vfloat
                (decimalToRat sign (digitsToNat ids) (digitsToNat fds) fds.length e))
          | _ => none
    | _ =>
        match rest with
        | 'e' :: _ =>
            (match jsonExp rest with
             | some (e, []) =>
                 some (Value.vfloat (decimalToRat sign (digitsToNat ids) 0 0 e))
             | _ => none)
        | 'E' :: _ =>
            (match jsonExp rest with
             | some (e, []) =>
                 some (Value.vfloat (decimalToRat sign (digitsToNat ids) 0 0 e))
             | _ => none)
        | _ => none

/-- `json.loads` restricted to the scalars representable in the
modelled value domain: null, booleans, numbers, and simple strings
without escape sequences.  Arrays, objects and escaped strings fall
outside the domain; parsing them is modelled as a failure, which the
source converts to returning the value unchanged. -/
def jsonScalarParse (s : String) : Option Value :=
  let l := stripChars s.data
  if l = "null".data then some Value.vnull
  else if l = "true".data then some (Value.vbool true)
  else if l = "false".data then some (Value.vbool false)
  else
    match l with
    | '"' :: rest =>
        if rest ≠ [] ∧ rest.getLast? = some '"' ∧
            rest.dropLast.all (fun c => c ≠ '"' && c ≠ '\\') then
          some (Value.vstr (String.mk rest.dropLast))
        else none
    | _ => jsonNumberParse l

/-- Whitespace runs collapsed to single spaces (`re.sub(r"\s+", " ", s)`). -/
def collapseSpacesAux (prevSpace : Bool) : List Char → List Char
  | [] => []
  | c :: rest =>
      if pyIsSpaceChar c then
        if prevSpace then collapseSpacesAux true rest
        else ' ' :: collapseSpacesAux true rest
      else c :: collapseSpacesAux false rest

def collapseSpaces (s : String) : String :=
  String.mk (collapseSpacesAux false s.data)

/-- `DataTransformer._apply_transformer`: dispatch on the transformer
name, every branch translated from src/services/transformers.py; an
unknown name returns the value unchanged. -/
def apply_transformer (value : Value) (transformer : String) : Value :=
  if transformer = "TRIM" then
    if pyTruthy value then Value.vstr (pyStrip (pyStr value)) else value
  else if transformer = "UPPER_TRIM" then
    if pyTruthy value then Value.vstr (strUpper (pyStrip (pyStr value))) else value
  else if transformer = "LOWER_TRIM" then
    if pyTruthy value then Value.vstr (strLower (pyStrip (pyStr value))) else value
  else if transformer = "BUDDHIST_TO_ISO" then buddhist_to_iso value
  else if transformer = "ENG_DATE_TO_ISO" then eng_date_to_iso value
  else if transformer = "SPLIT_THAI_NAME" then
    if pyTruthy value then Value.vstr (pyStrip (pyStr value)) else value
  else if transformer = "SPLIT_ENG_NAME" then
    if pyTruthy value then Value.vstr (pyStrip (pyStr value)) else value
  else if transformer = "FORMAT_PHONE" then format_phone value
  else if transformer = "MAP_GENDER" then map_gender value
  else if transformer = "TO_NUMBER" then
    (if pyTruthy value then
      match pyFloat value with
      | some q => Value.vfloat q
      | none => Value.vnull
    else Value.vnull)
  else if transformer = "FLOAT_TO_INT" then
    (if pyTruthy value then
      match pyFloat value with
      | some q => Value.vint (ratTruncate q)
      | none => Value.vnull
    else Value.vnull)
  else if transformer = "CLEAN_SPACES" then
    if pyTruthy value then Value.vstr (collapseSpaces (pyStrip (pyStr value))) else value
  else if transformer = "REMOVE_PREFIX" then
    if pyTruthy value then Value.vstr (pyStrip (pyStr value)) else value
  else if transformer = "REPLACE_EMPTY_WITH_NULL" then
    if value = Value.vnull ∨ pyStrip (pyStr value) = "" then Value.vnull else value
  else if transformer = "LOOKUP_VISIT_ID" then value
  else if transformer = "LOOKUP_PATIENT_ID" then value
  else if transformer = "LOOKUP_DOCTOR_ID" then value
  else if transformer = "PARSE_JSON" then
    (match value with
     | Value.vstr s =>
         (match jsonScalarParse s with
          | some v => v
          | none => value)
     | _ => value)
  else value

/-- The entry guard of `transform_value`: Python
`value is None or (isinstance(value, str) and value.strip() == "")`. -/
def nullOrBlank : Value → Bool
  | Value.vnull => true
  | Value.vstr s => pyStrip s = ""
  | _ => false

/-- `DataTransformer.transform_value`: null/blank input short-circuits;
otherwise the transformers are folded over the value in list order.
Over the modelled value domain every branch of `apply_transformer` is
total, so the per-step exception handler of the source never fires; the
guarded engine below models steps that can fail. -/
def transform_value (value : Value) (transformers : List String) : Value :=
  if nullOrBlank value then value
  else transformers.foldl apply_transformer value

/-- The per-step `try/except/continue` of `transform_value`: a failing
step keeps the current value. -/
def recoverStep (step : Value → String → Except String Value)
    (v : Value) (t : String) : Value :=
  match step v t with
  | Except.ok w => w
  | Except.error _ => v

/-- The loop body of `transform_value` over a step function that can
fail, as in the source where `_apply_transformer` may raise. -/
def apply_chain (step : Value → String → Except String Value)
    (v : Value) (ts : List String) : Value :=
  ts.foldl (recoverStep step) v

/-- `transform_value` over a fallible step function: the entry guard,
then the recovering loop. -/
def transform_value_guarded (step : Value → String → Except String Value)
    (value : Value) (ts : List String) : Value :=
  if nullOrBlank value then value else apply_chain step value ts

/-- A propagating variant with no exception handler: what the loop
would compute if a step failure aborted the pipeline. -/
def transform_value_propagating (step : Value → String → Except String Value)
    (value : Value) (ts : List String) : Except String Value :=
  if nullOrBlank value then Except.ok value
  else ts.foldlM step value

/-! ### Mapping configuration and batch application -/

/-- First match in an association list (Python dict lookup). -/
def lookupA {α : Type} (l : List (String × α)) (k : String) : Option α :=
  match l with
  | [] => none
  | (k2, v) :: rest => if k2 = k then some v else lookupA rest k

/-- Python dict assignment on an association list: replace an existing
key in place, append a fresh one. -/
def dictInsert {α : Type} (l : List (String × α)) (k : String) (v : α) :
    List (String × α) :=
  if l.any (fun p => p.1 = k) then
    l.map (fun p => if p.1 = k then (k, v) else p)
  else l ++ [(k, v)]

/-- One entry of the per-source mapping dict passed to
`apply_mapping_transformers`.  A `none` in `transformers` models the
absence of the "transformers" key.  The `ignore` field is carried so
that theorems can speak about it; the source never reads it in the
batch functions. -/
structure MappingEntry where
  target : String
  transformers : Option (List String) := none
  ignore : Bool := false
deriving DecidableEq, Repr

/-- `DataTransformer.apply_mapping_transformers`: for each row field in
order, a mapping entry with a "transformers" key sends the transformed
value to the target name; otherwise the field passes through under its
own key. -/
def apply_mapping_transformers (row : List (String × Value))
    (mapping : List (String × MappingEntry)) : List (String × Value) :=
  row.foldl
    (fun acc kv =>
      match lookupA mapping kv.1 with
      | some me =>
          (match me.transformers with
           | some ts => dictInsert acc me.target (transform_value kv.2 ts)
           | none => dictInsert acc kv.1 kv.2)
      | none => dictInsert acc kv.1 kv.2)
    []

/-- One column mapping of a MigrationConfig as the code reads it, with
the Python `dict.get` defaults: missing "source"/"target" behave as the
falsy empty string, a missing "transformers" as the falsy empty list,
and a missing "ignore" as false. -/
structure Mapping where
  source : String := ""
  target : String := ""
  transformers : List String := []
  validators : List String := []
  required : Bool := false
  ignore : Bool := false
  lookupTable : Option String := none
  lookupBy : Option String := none
deriving DecidableEq, Repr

/-- The slice of a MigrationConfig consulted by the batch executor and
the query generator; `none` models a config dict without a "mappings"
key. -/
structure MigrationConfig where
  mappings : Option (List Mapping) := none
deriving DecidableEq, Repr

/-- A pandas DataFrame reduced to what the code touches: named columns
of values.  It is empty when it has no columns or no rows. -/
structure PyDataFrame where
  cols : List (String × List Value)
deriving DecidableEq, Repr

def dfIsEmpty (df : PyDataFrame) : Bool :=
  match df.cols with
  | [] => true
  | (_, vs) :: _ => vs.isEmpty

/-- The `transformer_map` dict built by `apply_transformers_to_batch`:
keyed by source column, keeping target and transformers, for mappings
whose source and transformer list are truthy. -/
def buildTransformerMap (mappings : List Mapping) :
    List (String × (String × List String)) :=
  mappings.foldl
    (fun acc m =>
      if m.source ≠ "" ∧ m.transformers ≠ [] then
        dictInsert acc m.source (m.target, m.transformers)
      else acc)
    []

/-- `DataTransformer.apply_transformers_to_batch`: empty frame or a
config without mappings returns the frame unchanged; otherwise each
column named in the transformer map is transformed in place (the
source stores the transformed values back under the source column
name and drops no column). -/
def apply_transformers_to_batch (df : PyDataFrame) (config : MigrationConfig) :
    PyDataFrame :=
  if dfIsEmpty df ∨ config.mappings = none then df
  else
    let tmap := buildTransformerMap (config.mappings.getD [])
    ⟨df.cols.map
      (fun c =>
        match lookupA tmap c.1 with
        | some tc => (c.1, c.2.map (fun v => transform_value v tc.2))
        | none => c)⟩

/-- The optional LIMIT suffix of the generated query; Python
`if sample_limit:` treats both `None` and `0` as absent. -/
def limitClause : Option Nat → String
  | some n => if n = 0 then "" else " LIMIT " ++ toString n
  | none => ""

/-- `generate_select_query` from src/views/migration_engine.py: a falsy
config or one without a "mappings" key yields `SELECT *`; otherwise the
non-ignored sources are listed in brackets; when that list is empty the
function again falls back to `SELECT *`. -/
def generate_select_query (config_data : Option MigrationConfig)
    (source_table : String) (sample_limit : Option Nat) : String :=
  match config_data with
  | none => "SELECT * FROM " ++ source_table
  | some cfg =>
      match cfg.mappings with
      | none => "SELECT * FROM " ++ source_table
      | some mappings =>
          let selected_cols := (mappings.filter (fun m => !m.ignore)).map (fun m => m.source)
          if selected_cols.isEmpty then "SELECT * FROM " ++ source_table
          else
            let columns_str := String.intercalate ", "
              (selected_cols.map (fun col => "[" ++ col ++ "]"))
            "SELECT " ++ columns_str ++ " FROM " ++ source_table ++ limitClause sample_limit

/-! ### Regex helpers for the column analyzer

Each `...At` predicate decides whether the regex matches at the start
of the character list; `searchAny` tries every suffix, giving the
`re.search` semantics of a match anywhere in the string. -/

def searchAny (p : List Char → Bool) : List Char → Bool
  | [] => p []
  | c :: rest => p (c :: rest) || searchAny p rest

/-- A match of `25[5-9]\d` at the start. -/
def thaiYearAt : List Char → Bool
  | '2' :: '5' :: c :: d :: _ => ('5' ≤ c && c ≤ '9') && d.isDigit
  | _ => false

def isSepChar (c : Char) : Bool := c = '-' || c = '/'

/-- A separator followed by at least one digit. -/
def sepThenDigit : List Char → Bool
  | s :: d :: _ => isSepChar s && d.isDigit
  | _ => false

/-- A match of digits, a hyphen or slash, digits (one or two digits each side) at the start (for existence only
the first digit after the separator matters). -/
def digits12SepDigit : List Char → Bool
  | a :: rest =>
      a.isDigit && (sepThenDigit rest ||
        (match rest with
         | b :: rest2 => b.isDigit && sepThenDigit rest2
         | [] => false))
  | [] => false

/-- A match of four digits, separator, one or two digits, separator, one or two digits at the start. -/
def isoDateAt : List Char → Bool
  | a :: b :: c :: d :: s :: rest =>
      a.isDigit && b.isDigit && c.isDigit && d.isDigit && isSepChar s &&
        digits12SepDigit rest
  | _ => false

/-- A match of the date-indicator pattern at the start: two, three or four
digits, a separator, then at least one digit. -/
def dateIndicatorAt : List Char → Bool
  | a :: b :: rest =>
      a.isDigit && b.isDigit &&
        (sepThenDigit rest ||
          (match rest with
           | c :: rest2 =>
               c.isDigit && (sepThenDigit rest2 ||
                 (match rest2 with
                  | d :: rest3 => d.isDigit && sepThenDigit rest3
                  | [] => false))
           | [] => false))
  | _ => false

/-- A match of `\s{2,}` at the start. -/
def multiSpaceAt : List Char → Bool
  | a :: b :: _ => pyIsSpaceChar a && pyIsSpaceChar b
  | _ => false

/-- A full match of `^\d+\.0+$` (after the first digit). -/
def floatZeroTail : List Char → Bool
  | [] => false
  | c :: rest =>
      if c.isDigit then floatZeroTail rest
      else c = '.' && rest ≠ [] && rest.all (fun x => x = '0')

def floatZeroMatch : List Char → Bool
  | c :: rest => c.isDigit && floatZeroTail rest
  | [] => false

/-- A full match of a digit string of length between `lo` and `hi`. -/
def digitsLenMatch (lo hi : Nat) (l : List Char) : Bool :=
  l.all Char.isDigit && lo ≤ l.length && l.length ≤ hi

/-- Python substring containment `needle in hay`. -/
def containsSub (hay needle : List Char) : Bool :=
  searchAny (fun l => needle.isPrefixOf l) hay

def strContains (hay needle : String) : Bool :=
  containsSub hay.data needle.data

/-! ### Column analyzer (src/services/ml_mapper.py) -/

/-- The result dict of `analyze_column_with_sample`. -/
structure AnalysisResult where
  confidence_score : ℚ
  is_match : Bool
  transformers : List String
  should_ignore : Bool
  reason : String
deriving DecidableEq, Repr

/-- The result dict of `_analyze_date_patterns`. -/
structure DateScore where
  detected : Bool
  transformers : List String
  confidence : ℚ
  reason : String
deriving DecidableEq, Repr

/-- The result dict of `_analyze_string_quality`. -/
structure StringScore where
  has_issues : Bool
  transformers : List String
  reason : String
deriving DecidableEq, Repr

/-- The result dict of `_analyze_numeric_patterns`. -/
structure NumericScore where
  detected : Bool
  transformers : List String
  should_ignore : Bool
  reason : String
deriving DecidableEq, Repr

/-- The result dict of `_analyze_his_patterns`. -/
structure HisScore where
  detected : Bool
  is_match : Bool
  confidence : ℚ
  reason : String
deriving DecidableEq, Repr

/-- `_analyze_date_patterns`: the Thai-year branch fires on more than
half the samples and stops detection; then the ISO branch on more than
70 percent; then the mixed branch on more than half. -/
def analyze_date_patterns (sample_str : List String) : DateScore :=
  let n := sample_str.length
  let thai_matches := (sample_str.filter (fun s => searchAny thaiYearAt s.data)).length
  if (thai_matches : ℚ) > Rat.divInt n 2 then
    { detected := true, transformers := ["BUDDHIST_TO_ISO"],
      confidence := min (Rat.divInt 9 10) (Rat.divInt thai_matches n),
      reason := "Detected Thai Buddhist year (25xx) in " ++ toString thai_matches ++
        "/" ++ toString n ++ " samples" }
  else
    let iso_matches := (sample_str.filter (fun s => searchAny isoDateAt s.data)).length
    if (iso_matches : ℚ) > Rat.divInt (7 * n) 10 then
      { detected := true, transformers := [], confidence := Rat.divInt 4 5,
        reason := "Detected ISO date format in " ++ toString iso_matches ++
          "/" ++ toString n ++ " samples" }
    else
      let date_indicators :=
        (sample_str.filter (fun s => searchAny dateIndicatorAt s.data)).length
      if (date_indicators : ℚ) > Rat.divInt n 2 then
        { detected := true, transformers := ["ENG_DATE_TO_ISO"], confidence := Rat.divInt 3 5,
          reason := "Mixed date formats detected - normalization recommended" }
      else
        { detected := false, transformers := [], confidence := Rat.divInt 1 2, reason := "" }

/-- `_analyze_string_quality`: whitespace, runs of spaces, JSON-like
prefixes. -/
def analyze_string_quality (sample_str : List String) : StringScore :=
  let n := sample_str.length
  let whitespace_count := (sample_str.filter (fun s => s ≠ pyStrip s)).length
  let r1 : StringScore :=
    if 0 < whitespace_count then
      { has_issues := true, transformers := ["TRIM"],
        reason := "Leading/trailing whitespace in " ++ toString whitespace_count ++
          "/" ++ toString n ++ " samples" }
    else { has_issues := false, transformers := [], reason := "" }
  let multi_space_count :=
    (sample_str.filter (fun s => searchAny multiSpaceAt s.data)).length
  let r2 : StringScore :=
    if (multi_space_count : ℚ) > Rat.divInt (3 * n) 10 then
      { r1 with
        has_issues := true, transformers := r1.transformers ++ ["CLEAN_SPACES"],
        reason := (if r1.reason ≠ "" then
            r1.reason ++ "; multiple spaces in " ++ toString multi_space_count ++ " samples"
          else r1.reason) }
    else r1
  let json_indicators :=
    (sample_str.filter (fun s => headIs (Char.ofNat 123) s || headIs (Char.ofNat 91) s)).length
  if (json_indicators : ℚ) > Rat.divInt n 2 then
    { r2 with
      has_issues := true, transformers := r2.transformers ++ ["PARSE_JSON"],
      reason := "JSON/array structures detected" }
  else r2

/-- `_analyze_numeric_patterns`: float-rendered integers, all-zero
placeholder columns, identifiers with leading zeros. -/
def analyze_numeric_patterns (sample_str : List String) (col_name : String) :
    NumericScore :=
  let n := sample_str.length
  let float_matches := (sample_str.filter (fun s => floatZeroMatch s.data)).length
  if (float_matches : ℚ) > Rat.divInt (7 * n) 10 then
    { detected := true, transformers := ["FLOAT_TO_INT"], should_ignore := false,
      reason := "Detected float format IDs (" ++ toString float_matches ++ "/" ++
        toString n ++ " samples) - converting to integer" }
  else
    let all_zeros := sample_str.all
      (fun s => pyStrip s = "0" || pyStrip s = "0.0" || pyStrip s = "00")
    if all_zeros ∧
        ¬ (["count", "flag", "status"].any (fun kw => strContains (strLower col_name) kw)) then
      { detected := true, transformers := [], should_ignore := true,
        reason := "All values are zero - likely missing/placeholder data" }
    else if ["id", "code", "number"].any (fun kw => strContains (strLower col_name) kw) then
      let has_leading_zeros := sample_str.any
        (fun s => headIs (Char.ofNat 48) s && s.data ≠ [] && s.data.all Char.isDigit && 1 < s.length)
      if has_leading_zeros then
        { detected := true, transformers := [], should_ignore := false,
          reason := "ID with leading zeros - should preserve as string" }
      else { detected := false, transformers := [], should_ignore := false, reason := "" }
    else { detected := false, transformers := [], should_ignore := false, reason := "" }

/-- `_analyze_his_patterns`: the healthcare identifier families.  In
the national-ID branch the source has no else arm, so a target outside
the family keeps the initialised `is_match = True` and the empty
reason. -/
def analyze_his_patterns (source_col target_col : String)
    (sample_str : List String) : HisScore :=
  let src_lower := strLower source_col
  let tgt_lower := strLower target_col
  let n := sample_str.length
  if ["hn", "hospital_number", "mrn"].any (fun kw => strContains src_lower kw) then
    let mcount := (sample_str.filter (fun s => digitsLenMatch 6 10 s.data)).length
    if ["hn", "hospital_number", "mrn"].any (fun kw => strContains tgt_lower kw) then
      { detected := true, is_match := true, confidence := Rat.divInt mcount n,
        reason := "HN pattern matched (" ++ toString mcount ++ "/" ++ toString n ++
          " valid)" }
    else
      { detected := true, is_match := false, confidence := Rat.divInt mcount n,
        reason := "Source is HN but target seems different" }
  else if ["cid", "national_id", "citizen_id", "id_card"].any
      (fun kw => strContains src_lower kw) then
    let mcount := (sample_str.filter (fun s => digitsLenMatch 13 13 s.data)).length
    if ["cid", "national_id", "citizen_id"].any (fun kw => strContains tgt_lower kw) then
      { detected := true, is_match := true, confidence := Rat.divInt mcount n,
        reason := "CID pattern matched (" ++ toString mcount ++ "/" ++ toString n ++
          " valid 13-digit)" }
    else
      { detected := true, is_match := true, confidence := Rat.divInt mcount n,
        reason := "" }
  else if ["vn", "visit", "an", "admission"].any (fun kw => strContains src_lower kw) then
    { detected := true, is_match := true, confidence := Rat.divInt 7 10,
      reason := "Healthcare visit/admission identifier detected" }
  else
    { detected := false, is_match := true, confidence := Rat.divInt 1 2, reason := "" }

/-- The filter of step 1 of `analyze_column_with_sample`: drop None and
values whose trimmed rendering is empty or a null-like token. -/
def validSampleValue (v : Value) : Bool :=
  v ≠ Value.vnull &&
    ¬ (["", "NaN", "None", "null"].contains (pyStrip (pyStr v)))

/-- `list(dict.fromkeys(l))`: deduplicate keeping first occurrences. -/
def dedupFirstAux (seen : List String) : List String → List String
  | [] => []
  | x :: xs =>
      if seen.contains x then dedupFirstAux seen xs
      else x :: dedupFirstAux (x :: seen) xs

/-- `SmartMapper.analyze_column_with_sample`, assembled exactly as the
source mutates its result dict step by step. -/
def analyze_column_with_sample (source_col_name target_col_name : String)
    (sample_values : List Value) : AnalysisResult :=
  let result0 : AnalysisResult :=
    { confidence_score := Rat.divInt 1 2, is_match := true, transformers := [],
      should_ignore := false, reason := "Standard mapping" }
  let valid_values := sample_values.filter validSampleValue
  if valid_values.isEmpty then
    { result0 with
      should_ignore := true, confidence_score := Rat.divInt 9 10,
      reason := "All values are null/empty - suggested to ignore" }
  else
    let sample_str := (valid_values.take 20).map (fun v => pyStrip (pyStr v))
    let date_score := analyze_date_patterns sample_str
    let r1 :=
      if date_score.detected then
        { result0 with
          transformers := result0.transformers ++ date_score.transformers,
          confidence_score := max result0.confidence_score date_score.confidence,
          reason := date_score.reason }
      else result0
    let string_score := analyze_string_quality sample_str
    let r2 :=
      if string_score.has_issues then
        { r1 with
          transformers := r1.transformers ++ string_score.transformers,
          reason := (if r1.reason = "Standard mapping" then string_score.reason
            else r1.reason) }
      else r1
    let numeric_score := analyze_numeric_patterns sample_str source_col_name
    let r3 :=
      if numeric_score.detected then
        (let ra := { r2 with transformers := r2.transformers ++ numeric_score.transformers }
         if numeric_score.should_ignore then
           { ra with should_ignore := true, reason := numeric_score.reason }
         else ra)
      else r2
    let his_score := analyze_his_patterns source_col_name target_col_name sample_str
    let r4 :=
      if his_score.detected then
        { r3 with
          confidence_score := max r3.confidence_score his_score.confidence,
          is_match := his_score.is_match, reason := his_score.reason }
      else r3
    { r4 with transformers := dedupFirstAux [] r4.transformers }

/-! ### Configuration store (src/database.py)

The two tables touched by the verified operations.  The model assumes
the `config_history` table already has the current schema, so
`ensure_config_history_table` is the identity.  Statements executed on
a sqlite connection take effect only at commit; closing a connection
with uncommitted statements rolls them back, which is what the
`finally: conn.close()` of the source does after an exception. -/

structure ConfigRow where
  config_name : String
  table_name : String
  json_data : String
deriving DecidableEq, Repr

structure HistoryRow where
  config_name : String
  version : Nat
  json_data : String
deriving DecidableEq, Repr

structure ProjectDb where
  configs : List ConfigRow
  history : List HistoryRow
deriving DecidableEq, Repr

/-- The SQL statements `save_config_to_db` executes. -/
inductive DbStatement where
  | upsertConfig (name tbl json : String)
  | insertHistory (name : String) (version : Nat) (json : String)
deriving DecidableEq, Repr

/-- Effect of one statement: INSERT OR REPLACE keyed by the unique
`config_name`, and a plain INSERT into `config_history`. -/
def applyStatement (db : ProjectDb) : DbStatement → ProjectDb
  | DbStatement.upsertConfig name tbl json =>
      if db.configs.any (fun r => r.config_name = name) then
        { db with
          configs := db.configs.map
            (fun r => if r.config_name = name then ⟨name, tbl, json⟩ else r) }
      else { db with configs := db.configs ++ [⟨name, tbl, json⟩] }
  | DbStatement.insertHistory name ver json =>
      { db with history := db.history ++ [⟨name, ver, json⟩] }

def applyStatements (db : ProjectDb) (stmts : List DbStatement) : ProjectDb :=
  stmts.foldl applyStatement db

/-- A sqlite connection: committed state plus uncommitted statements. -/
structure SqliteConn where
  committed : ProjectDb
  pending : List DbStatement

def connExec (c : SqliteConn) (stmt : DbStatement) : SqliteConn :=
  { c with pending := c.pending ++ [stmt] }

def connCommit (c : SqliteConn) : SqliteConn :=
  ⟨applyStatements c.committed c.pending, []⟩

/-- Closing without commit discards pending statements. -/
def connClose (c : SqliteConn) : ProjectDb :=
  c.committed

/-- `SELECT MAX(version) FROM config_history WHERE config_name=?`,
with no rows giving NULL, modelled as 0 (both are falsy below). -/
def maxVersion (db : ProjectDb) (name : String) : Nat :=
  ((db.history.filter (fun h => h.config_name = name)).map
    (fun h => h.version)).foldl max 0

/-- Python `(max_version + 1) if max_version else 1`. -/
def nextVersionFor (db : ProjectDb) (name : String) : Nat :=
  let max_version := maxVersion db name
  if max_version = 0 then 1 else max_version + 1

/-- The operations of `save_config_to_db` at which an exception can be
raised; the `except` clause then returns False and the `finally` close
rolls back whatever was pending. -/
inductive SaveFailure where
  | atSelectMax | atInsertConfig | atInsertHistory | atCommit
deriving DecidableEq, Repr

/-- `save_config_to_db`: read the next version, stage both inserts on
the one connection, then commit once; any failure point short-circuits
to the except branch and the close rolls the transaction back. -/
def save_config_to_db (db : ProjectDb) (config_name table_name json_str : String)
    (failAt : Option SaveFailure) : ProjectDb × Bool :=
  let conn : SqliteConn := ⟨db, []⟩
  if failAt = some SaveFailure.atSelectMax then (connClose conn, false)
  else
    let next_version := nextVersionFor conn.committed config_name
    if failAt = some SaveFailure.atInsertConfig then (connClose conn, false)
    else
      let conn2 := connExec conn (DbStatement.upsertConfig config_name table_name json_str)
      if failAt = some SaveFailure.atInsertHistory then (connClose conn2, false)
      else
        let conn3 := connExec conn2 (DbStatement.insertHistory config_name next_version json_str)
        if failAt = some SaveFailure.atCommit then (connClose conn3, false)
        else (connClose (connCommit conn3), true)

/-- `delete_config`: `DELETE FROM configs WHERE config_name=?` and
commit.  The `ON DELETE CASCADE` declared on `config_history` is not
enforced, because the code never issues `PRAGMA foreign_keys=ON` and
sqlite leaves foreign-key enforcement OFF by default; history rows for
the deleted name therefore remain. -/
def delete_config (db : ProjectDb) (config_name : String) :
    ProjectDb × (Bool × String) :=
  ({ db with configs := db.configs.filter (fun r => r.config_name ≠ config_name) },
   (true, "Config deleted successfully"))

/-- The consistency the spec demands of the store: every current
config row has a history entry for the same name carrying the same
JSON payload. -/
def pointerConsistent (db : ProjectDb) : Prop :=
  ∀ cr ∈ db.configs, ∃ hr ∈ db.history,
    hr.config_name = cr.config_name ∧ hr.json_data = cr.json_data

instance (db : ProjectDb) : Decidable (pointerConsistent db) := by
  unfold pointerConsistent; infer_instance

/-! ### Instrumentation used by the theorems -/

/-- Overwrite the ignore flag of every entry of a per-source mapping
dict (instrumentation for the ignore-independence theorem). -/
def setIgnoreEntries (b : Bool) (m : List (String × MappingEntry)) :
    List (String × MappingEntry) :=
  m.map (fun p => (p.1, { p.2 with ignore := b }))

/-- Overwrite the ignore flag of every mapping of a config. -/
def setIgnoreMappings (b : Bool) (cfg : MigrationConfig) : MigrationConfig :=
  ⟨cfg.mappings.map (fun ms => ms.map (fun m => { m with ignore := b }))⟩

/-- The working sample of `analyze_column_with_sample`: at most the
first 20 valid values, stringified and trimmed. -/
def workingSample (samples : List Value) : List String :=
  ((samples.filter validSampleValue).take 20).map (fun v => pyStrip (pyStr v))

/-- How many strings of the sample contain a Thai-Buddhist-year
pattern. -/
def thaiCount (sample_str : List String) : Nat :=
  (sample_str.filter (fun s => searchAny thaiYearAt s.data)).length

/-- A fallible step function used to witness the error-recovery
theorem: it fails on the name BOOM and otherwise applies the concrete
transformer dispatch. -/
def boomStep (v : Value) (t : String) : Except String Value :=
  if t = "BOOM" then Except.error "boom" else Except.ok (apply_transformer v t)

/-! ### Theorems -/

/-- C4: for every list of transformer names, of any content and length,
applying `transform_value` to a null input or to an all-whitespace
string input short-circuits the entire pipeline and returns the input
unchanged. -/
theorem C4_null_blank_short_circuit (transformers : List String) (v : Value)
    (h : v = Value.vnull ∨ ∃ s, v = Value.vstr s ∧ pyStrip s = "") :
    transform_value v transformers = v := by
  rcases h with rfl | ⟨s, rfl, hs⟩
  · simp [transform_value, nullOrBlank]
  · simp [transform_value, nullOrBlank, hs]

/-- Witness for C4 at a concrete whitespace string and pipeline. -/
theorem C4_witness :
    ((Value.vstr " \t ") = Value.vnull ∨
      ∃ s, (Value.vstr " \t ") = Value.vstr s ∧ pyStrip s = "") ∧
    transform_value (Value.vstr " \t ")
      ["TRIM", "BUDDHIST_TO_ISO", "FLOAT_TO_INT", "UNKNOWN"] = Value.vstr " \t " :=
  ⟨Or.inr ⟨" \t ", rfl, by decide⟩,
   C4_null_blank_short_circuit ["TRIM", "BUDDHIST_TO_ISO", "FLOAT_TO_INT", "UNKNOWN"]
     (Value.vstr " \t ") (Or.inr ⟨" \t ", rfl, by decide⟩)⟩

/-- C10: the falsy-but-numeric inputs int 0, float 0.0 and False are
not covered by the null/blank pipeline guard, reach TO_NUMBER and
FLOAT_TO_INT, and are turned into null by the `if value else None`
truthiness checks of those transformers, while the string "0" is
converted normally. -/
theorem C10_falsy_numeric_inputs_nulled :
    nullOrBlank (Value.vint 0) = false ∧
    nullOrBlank (Value.vfloat 0) = false ∧
    nullOrBlank (Value.vbool false) = false ∧
    transform_value (Value.vint 0) ["TO_NUMBER"] = Value.vnull ∧
    transform_value (Value.vfloat 0) ["TO_NUMBER"] = Value.vnull ∧
    transform_value (Value.vbool false) ["TO_NUMBER"] = Value.vnull ∧
    transform_value (Value.vint 0) ["FLOAT_TO_INT"] = Value.vnull ∧
    transform_value (Value.vfloat 0) ["FLOAT_TO_INT"] = Value.vnull ∧
    transform_value (Value.vbool false) ["FLOAT_TO_INT"] = Value.vnull ∧
    transform_value (Value.vstr "0") ["TO_NUMBER"] = Value.vfloat 0 ∧
    transform_value (Value.vstr "0") ["FLOAT_TO_INT"] = Value.vint 0 := by
  decide

/-- C5 counterexample: the input " ab " is malformed (its trimmed form
splits into one part, not three), and the claim then demands the
original string back unchanged; the code instead returns the trimmed
string "ab". -/
theorem C5_counterexample :
    ((splitOnChar '-' (pyStrip " ab ").data).map String.mk).length ≠ 3 ∧
    buddhist_to_iso (Value.vstr " ab ") = Value.vstr "ab" ∧
    Value.vstr "ab" ≠ Value.vstr " ab " := by
  decide

set_option maxHeartbeats 1000000 in
/-- C5 amended: with exactly three hyphen-separated `int()`-parseable
parts the transformer subtracts 543 from the year and re-renders
zero-padded; a trimmed input that does not split into three parts comes
back trimmed (not necessarily unchanged); three parts with a
non-numeric member raise inside `int()` and return the original value
unchanged. -/
theorem C5_amended_buddhist :
    (∀ s p0 p1 p2 y m d,
        (splitOnChar '-' (pyStrip s).data).map String.mk = [p0, p1, p2] →
        pyInt p0 = some y → pyInt p1 = some m → pyInt p2 = some d →
        buddhist_to_iso (Value.vstr s) =
          Value.vstr (pyFmtInt 4 (y - 543) ++ "-" ++ pyFmtInt 2 m ++ "-" ++
            pyFmtInt 2 d)) ∧
    (∀ s, ((splitOnChar '-' (pyStrip s).data).map String.mk).length ≠ 3 →
        buddhist_to_iso (Value.vstr s) = Value.vstr (pyStrip s)) ∧
    (∀ s p0 p1 p2,
        (splitOnChar '-' (pyStrip s).data).map String.mk = [p0, p1, p2] →
        pyInt p0 = none ∨ pyInt p1 = none ∨ pyInt p2 = none →
        buddhist_to_iso (Value.vstr s) = Value.vstr s) ∧
    buddhist_to_iso (Value.vstr "2566-05-15") = Value.vstr "2023-05-15" ∧
    buddhist_to_iso (Value.vstr "not-a-date") = Value.vstr "not-a-date" := by
  refine ⟨?_, ?_, ?_, by decide, by decide⟩
  · intro s p0 p1 p2 y m d hparts h0 h1 h2
    unfold buddhist_to_iso
    simp only [pyStr, hparts]
    simp [h0, h1, h2]
  · intro s hlen
    unfold buddhist_to_iso
    simp only [pyStr]
    rw [if_neg hlen]
  · intro s p0 p1 p2 hparts hnone
    unfold buddhist_to_iso
    simp only [pyStr, hparts]
    rcases hnone with h | h | h <;>
      cases e0 : pyInt p0 <;> cases e1 : pyInt p1 <;> cases e2 : pyInt p2 <;>
        simp_all

/-- Witness for C5 at concrete well-formed and malformed inputs. -/
theorem C5_amended_buddhist_witness :
    buddhist_to_iso (Value.vstr " 2566-05-15 ") = Value.vstr "2023-05-15" ∧
    buddhist_to_iso (Value.vstr "a-b") = Value.vstr "a-b" ∧
    buddhist_to_iso (Value.vstr "x-y-z") = Value.vstr "x-y-z" :=
  ⟨(C5_amended_buddhist.1 " 2566-05-15 " "2566" "05" "15" 2566 5 15
      (by decide) (by decide) (by decide) (by decide)).trans (by decide),
   (C5_amended_buddhist.2.1 "a-b" (by decide)).trans (by decide),
   C5_amended_buddhist.2.2.1 "x-y-z" "x" "y" "z" (by decide) (Or.inl (by decide))⟩

/-- C2 counterexample: with every mapping ignored (here the single
mapping on source a), the claim demands a column-restricted SELECT that
never includes the ignored mapping; the code instead falls back to
`SELECT *`, which reads every column of the table, the ignored one
included. -/
theorem C2_counterexample :
    generate_select_query
        (some ⟨some [{ source := "a", ignore := true }]⟩) "patients" none =
      "SELECT * FROM patients" := by
  decide

/-- C2 amended: when at least one mapping survives the ignore filter,
the generated query lists exactly the bracketed non-ignored source
columns in order, with the LIMIT suffix when a nonzero sample limit is
given; when the filter leaves nothing (in particular when every mapping
is ignored), the function falls back to `SELECT *`. -/
theorem C2_amended_select_query :
    (∀ (ms : List Mapping) (t : String) (lim : Option Nat),
        ms.filter (fun m => !m.ignore) ≠ [] →
        generate_select_query (some ⟨some ms⟩) t lim =
          "SELECT " ++ String.intercalate ", "
              (((ms.filter (fun m => !m.ignore)).map (fun m => m.source)).map
                (fun col => "[" ++ col ++ "]")) ++
            " FROM " ++ t ++ limitClause lim) ∧
    (∀ (ms : List Mapping) (t : String) (lim : Option Nat),
        ms.filter (fun m => !m.ignore) = [] →
        generate_select_query (some ⟨some ms⟩) t lim = "SELECT * FROM " ++ t) := by
  constructor
  · intro ms t lim h
    simp only [generate_select_query]
    rw [if_neg (by simp only [List.isEmpty_iff, List.map_eq_nil_iff]; exact h)]
  · intro ms t lim h
    simp only [generate_select_query]
    rw [h]
    simp

/-- Witness for C2 at a concrete config with one kept and one ignored
mapping, and one with only ignored mappings. -/
theorem C2_amended_select_query_witness :
    generate_select_query
        (some ⟨some [{ source := "a" }, { source := "b", ignore := true },
          { source := "c" }]⟩) "t" (some 20) = "SELECT [a], [c] FROM t LIMIT 20" ∧
    generate_select_query (some ⟨some [{ source := "b", ignore := true }]⟩) "t"
        (some 20) = "SELECT * FROM t" :=
  ⟨by
    have h := C2_amended_select_query.1
      [{ source := "a" }, { source := "b", ignore := true }, { source := "c" }]
      "t" (some 20) (by decide)
    simpa using h,
   by
    have h := C2_amended_select_query.2
      [{ source := "b", ignore := true }] "t" (some 20) (by decide)
    simpa using h⟩

/-- C1 counterexample: under a config whose only mapping (source a) is
marked ignore, the batch function keeps column a, merely transforming
it in place, and the row-level function emits the ignored mapping under
its target key with the transformed value — the ignored column is not
dropped from the output. -/
theorem C1_counterexample :
    apply_transformers_to_batch ⟨[("a", [Value.vstr " x "])]⟩
        ⟨some [{ source := "a", target := "b", transformers := ["TRIM"], ignore := true }]⟩ =
      ⟨[("a", [Value.vstr "x"])]⟩ ∧
    apply_mapping_transformers [("a", Value.vstr " x ")]
        [("a", { target := "b", transformers := some ["TRIM"], ignore := true })] =
      [("b", Value.vstr "x")] := by
  decide

/-- C9: the claim (and the schema's ON DELETE CASCADE) say deletion
removes all history versions, but the code never enables sqlite
foreign-key enforcement, so after saving config c1 once and deleting
it, the version-1 history row is still stored. -/
theorem C9_delete_leaves_history :
    (delete_config (save_config_to_db ⟨[], []⟩ "c1" "patients" "cfgjson" none).1
        "c1").1.configs = [] ∧
    (delete_config (save_config_to_db ⟨[], []⟩ "c1" "patients" "cfgjson" none).1
        "c1").1.history = [⟨"c1", 1, "cfgjson"⟩] := by
  decide

/-- A run of the loop body that never hits an error agrees with the
recovering loop. -/
theorem chain_agrees_with_ok_run (step : Value → String → Except String Value) :
    ∀ (ts : List String) (v w : Value),
      ts.foldlM step v = Except.ok w → ts.foldl (recoverStep step) v = w := by
  intro ts
  induction ts with
  | nil => intro v w h; exact Except.ok.inj h
  | cons t rest ih =>
      intro v w h
      rw [List.foldlM_cons] at h
      cases hst : step v t with
      | ok v2 =>
          rw [hst] at h
          simp only [List.foldl_cons, recoverStep, hst]
          exact ih v2 w h
      | error e =>
          rw [hst] at h
          exact Except.noConfusion h

/-- C3: a transformer step that fails is skipped (the value at that
point passes through unchanged) and the pipeline continues with the
remaining transformers; on runs without failures the engine agrees
with a propagating semantics, and the concrete `transform_value` is
the guarded engine over the total transformer dispatch, so no
exception crosses the pipeline boundary. -/
theorem C3_failure_skipped_and_contained :
    (∀ (step : Value → String → Except String Value) (v : Value) (t : String)
        (ts : List String) (e : String),
        step v t = Except.error e →
        apply_chain step v (t :: ts) = apply_chain step v ts) ∧
    (∀ (step : Value → String → Except String Value) (v : Value)
        (ts : List String) (w : Value),
        transform_value_propagating step v ts = Except.ok w →
        transform_value_guarded step v ts = w) ∧
    (∀ (v : Value) (ts : List String),
        transform_value v ts =
          transform_value_guarded (fun w t => Except.ok (apply_transformer w t)) v ts) := by
  refine ⟨?_, ?_, ?_⟩
  · intro step v t ts e h
    simp [apply_chain, recoverStep, h]
  · intro step v ts w h
    unfold transform_value_propagating at h
    unfold transform_value_guarded apply_chain
    by_cases hb : nullOrBlank v = true
    · rw [if_pos hb] at h ⊢
      exact Except.ok.inj h
    · rw [if_neg hb] at h ⊢
      exact chain_agrees_with_ok_run step ts v w h
  · intro v ts
    rfl

/-- Witness for C3: a pipeline whose first step fails on the name BOOM
continues with the rest, and on a failure-free pipeline the engines
agree. -/
theorem C3_witness :
    boomStep (Value.vstr "a") "BOOM" = Except.error "boom" ∧
    apply_chain boomStep (Value.vstr "a") ["BOOM", "UPPER_TRIM"] =
      apply_chain boomStep (Value.vstr "a") ["UPPER_TRIM"] ∧
    transform_value_propagating boomStep (Value.vstr " x ") ["TRIM"] =
      Except.ok (Value.vstr "x") ∧
    transform_value_guarded boomStep (Value.vstr " x ") ["TRIM"] = Value.vstr "x" :=
  ⟨rfl,
   C3_failure_skipped_and_contained.1 boomStep (Value.vstr "a") "BOOM" ["UPPER_TRIM"]
     "boom" rfl,
   rfl,
   C3_failure_skipped_and_contained.2.1 boomStep (Value.vstr " x ") ["TRIM"]
     (Value.vstr "x") rfl⟩

/-- C6 counterexample: source cid signals the national-ID family and
target email does not, yet the analysis keeps is_match true (the
national-ID branch has no else arm), where the claim demands false. -/
theorem C6_counterexample :
    ["cid", "national_id", "citizen_id", "id_card"].any
        (fun kw => strContains (strLower "cid") kw) = true ∧
    (["hn", "hospital_number", "mrn"] ++ ["cid", "national_id", "citizen_id", "id_card"]).any
        (fun kw => strContains (strLower "email") kw) = false ∧
    (analyze_column_with_sample "cid" "email" [Value.vstr "1234567890123"]).is_match
      = true := by
  decide

/-- The transformer map ignores the ignore flags of the mappings. -/
theorem buildTransformerMap_setIgnore (b : Bool) (ms : List Mapping) :
    buildTransformerMap (ms.map (fun m => { m with ignore := b })) =
      buildTransformerMap ms := by
  unfold buildTransformerMap
  rw [List.foldl_map]

/-- Looking up a key after overwriting every ignore flag returns the
original entry with its flag overwritten. -/
theorem lookupA_setIgnoreEntries (b : Bool) (m : List (String × MappingEntry))
    (k : String) :
    lookupA (setIgnoreEntries b m) k =
      (lookupA m k).map (fun e => { e with ignore := b }) := by
  induction m with
  | nil => rfl
  | cons p rest ih =>
      simp only [setIgnoreEntries, List.map_cons, lookupA] at *
      by_cases hk : p.1 = k
      · simp [hk]
      · simp [hk, ih]

/-- Fold with pointwise-equal functions from any initial value. -/
theorem foldl_fun_congr {α β : Type} (f g : α → β → α)
    (h : ∀ a x, f a x = g a x) :
    ∀ (l : List β) (init : α), l.foldl f init = l.foldl g init := by
  intro l
  induction l with
  | nil => intro init; rfl
  | cons x xs ih =>
      intro init
      rw [List.foldl_cons, List.foldl_cons, h]
      exact ih _

/-- The loop body of `apply_mapping_transformers` is unaffected by the
ignore flags. -/
theorem amt_body_setIgnore (b : Bool) (m : List (String × MappingEntry))
    (acc : List (String × Value)) (kv : String × Value) :
    (match lookupA (setIgnoreEntries b m) kv.1 with
     | some me =>
         (match me.transformers with
          | some ts => dictInsert acc me.target (transform_value kv.2 ts)
          | none => dictInsert acc kv.1 kv.2)
     | none => dictInsert acc kv.1 kv.2) =
    (match lookupA m kv.1 with
     | some me =>
         (match me.transformers with
          | some ts => dictInsert acc me.target (transform_value kv.2 ts)
          | none => dictInsert acc kv.1 kv.2)
     | none => dictInsert acc kv.1 kv.2) := by
  rw [lookupA_setIgnoreEntries]
  cases lookupA m kv.1 <;> rfl

/-- C1 amended: the batch functions never consult the ignore flag and
drop nothing: the batch output has exactly the input column keys (an
ignored column is transformed in place, not removed), and both batch
functions are invariant under overwriting every ignore flag; exclusion
of ignored columns happens only in `generate_select_query`. -/
theorem C1_amended_ignore_not_consulted :
    (∀ (df : PyDataFrame) (cfg : MigrationConfig),
        (apply_transformers_to_batch df cfg).cols.map Prod.fst =
          df.cols.map Prod.fst) ∧
    (∀ (df : PyDataFrame) (cfg : MigrationConfig) (b : Bool),
        apply_transformers_to_batch df (setIgnoreMappings b cfg) =
          apply_transformers_to_batch df cfg) ∧
    (∀ (row : List (String × Value)) (m : List (String × MappingEntry)) (b : Bool),
        apply_mapping_transformers row (setIgnoreEntries b m) =
          apply_mapping_transformers row m) := by
  refine ⟨?_, ?_, ?_⟩
  · intro df cfg
    unfold apply_transformers_to_batch
    split
    · rfl
    · simp only [List.map_map]
      apply List.map_congr_left
      intro c _
      simp only [Function.comp_apply]
      cases lookupA (buildTransformerMap (cfg.mappings.getD [])) c.1 <;> rfl
  · intro df cfg b
    unfold apply_transformers_to_batch
    cases hm : cfg.mappings with
    | none => simp [setIgnoreMappings, hm]
    | some ms => simp [setIgnoreMappings, hm, buildTransformerMap_setIgnore]
  · intro row m b
    unfold apply_mapping_transformers
    exact foldl_fun_congr _ _ (fun acc kv => amt_body_setIgnore b m acc kv) row []

/-- C8: `save_config_to_db` is atomic: a failed save leaves the store
unchanged, a successful save applies exactly the configs upsert and the
history insert for the next version, and in either case the current
pointer never references a payload with no history entry. -/
theorem C8_save_atomicity (db : ProjectDb) (name tbl json : String)
    (failAt : Option SaveFailure) :
    ((save_config_to_db db name tbl json failAt).2 = false →
      (save_config_to_db db name tbl json failAt).1 = db) ∧
    ((save_config_to_db db name tbl json failAt).2 = true →
      (save_config_to_db db name tbl json failAt).1 =
        applyStatements db
          [DbStatement.upsertConfig name tbl json,
           DbStatement.insertHistory name (nextVersionFor db name) json]) ∧
    (pointerConsistent db →
      pointerConsistent (save_config_to_db db name tbl json failAt).1) := by
  have hfail : ∀ f, save_config_to_db db name tbl json (some f) = (db, false) := by
    intro f; cases f <;> rfl
  have hok : save_config_to_db db name tbl json none =
      (applyStatements db
        [DbStatement.upsertConfig name tbl json,
         DbStatement.insertHistory name (nextVersionFor db name) json], true) := rfl
  cases failAt with
  | some f =>
      rw [hfail f]
      exact ⟨fun _ => rfl, fun h => Bool.noConfusion h, fun h => h⟩
  | none =>
      rw [hok]
      refine ⟨fun h => Bool.noConfusion h, fun _ => rfl, fun h => ?_⟩
      intro cr hcr
      simp only [applyStatements, List.foldl_cons, List.foldl_nil, applyStatement] at hcr ⊢
      by_cases hany : db.configs.any (fun r => r.config_name = name) = true
      · rw [if_pos hany] at hcr ⊢
        rcases List.mem_map.mp hcr with ⟨r, hr, hrep⟩
        by_cases hn : r.config_name = name
        · refine ⟨⟨name, nextVersionFor db name, json⟩, ?_, ?_⟩
          · exact List.mem_append_right _ (List.mem_singleton.mpr rfl)
          · rw [if_pos hn] at hrep
            subst hrep
            exact ⟨rfl, rfl⟩
        · rw [if_neg hn] at hrep
          subst hrep
          rcases h r hr with ⟨hrow, hmem, hname, hjson⟩
          exact ⟨hrow, List.mem_append_left _ hmem, hname, hjson⟩
      · rw [if_neg hany] at hcr ⊢
        rcases List.mem_append.mp hcr with hold | hnew
        · rcases h cr hold with ⟨hrow, hmem, hname, hjson⟩
          exact ⟨hrow, List.mem_append_left _ hmem, hname, hjson⟩
        · rcases List.mem_singleton.mp hnew with rfl
          refine ⟨⟨name, nextVersionFor db name, json⟩,
            List.mem_append_right _ (List.mem_singleton.mpr rfl), rfl, rfl⟩

/-- Witness for C8: a failed save rolls back, a successful save on the
empty store stays pointer-consistent. -/
theorem C8_save_atomicity_witness :
    (save_config_to_db ⟨[], []⟩ "c" "t" "j" (some SaveFailure.atCommit)).1 =
      (⟨[], []⟩ : ProjectDb) ∧
    pointerConsistent (save_config_to_db ⟨[], []⟩ "c" "t" "j" none).1 :=
  ⟨(C8_save_atomicity ⟨[], []⟩ "c" "t" "j" (some SaveFailure.atCommit)).1 (by decide),
   (C8_save_atomicity ⟨[], []⟩ "c" "t" "j" none).2.2 (by decide)⟩

/-- The HN branch of `_analyze_his_patterns` with a target outside the
HN family. -/
theorem his_hn_mismatch (src tgt : String) (ss : List String)
    (hsrc : (["hn", "hospital_number", "mrn"].any
      (fun kw => strContains (strLower src) kw)) = true)
    (htgt : (["hn", "hospital_number", "mrn"].any
      (fun kw => strContains (strLower tgt) kw)) = false) :
    analyze_his_patterns src tgt ss =
      { detected := true, is_match := false,
        confidence := Rat.divInt
          ((ss.filter (fun s => digitsLenMatch 6 10 s.data)).length) ss.length,
        reason := "Source is HN but target seems different" } := by
  unfold analyze_his_patterns
  simp [hsrc, htgt]

/-- The national-ID branch of `_analyze_his_patterns` with a target
outside the family: no else arm, so is_match stays true and the reason
stays empty. -/
theorem his_cid_mismatch (src tgt : String) (ss : List String)
    (hsrcHN : (["hn", "hospital_number", "mrn"].any
      (fun kw => strContains (strLower src) kw)) = false)
    (hsrc : (["cid", "national_id", "citizen_id", "id_card"].any
      (fun kw => strContains (strLower src) kw)) = true)
    (htgt : (["cid", "national_id", "citizen_id"].any
      (fun kw => strContains (strLower tgt) kw)) = false) :
    analyze_his_patterns src tgt ss =
      { detected := true, is_match := true,
        confidence := Rat.divInt
          ((ss.filter (fun s => digitsLenMatch 13 13 s.data)).length) ss.length,
        reason := "" } := by
  unfold analyze_his_patterns
  simp [hsrcHN, hsrc, htgt]

/-- C6 amended: the mismatch rule holds for the HN family — an HN-like
source with a target outside the family yields is_match false with the
explanatory reason — but not for the national-ID family, whose branch
has no else arm: there a mismatched target leaves is_match true and
overwrites the reason with the empty string. -/
theorem C6_amended_domain_mismatch :
    (∀ (src tgt : String) (samples : List Value),
        samples.filter validSampleValue ≠ [] →
        (["hn", "hospital_number", "mrn"].any
          (fun kw => strContains (strLower src) kw)) = true →
        (["hn", "hospital_number", "mrn"].any
          (fun kw => strContains (strLower tgt) kw)) = false →
        (analyze_column_with_sample src tgt samples).is_match = false ∧
        (analyze_column_with_sample src tgt samples).reason =
          "Source is HN but target seems different") ∧
    (∀ (src tgt : String) (samples : List Value),
        samples.filter validSampleValue ≠ [] →
        (["hn", "hospital_number", "mrn"].any
          (fun kw => strContains (strLower src) kw)) = false →
        (["cid", "national_id", "citizen_id", "id_card"].any
          (fun kw => strContains (strLower src) kw)) = true →
        (["cid", "national_id", "citizen_id"].any
          (fun kw => strContains (strLower tgt) kw)) = false →
        (analyze_column_with_sample src tgt samples).is_match = true ∧
        (analyze_column_with_sample src tgt samples).reason = "") := by
  constructor
  · intro src tgt samples hvalid hsrc htgt
    unfold analyze_column_with_sample
    rw [if_neg (by simpa [List.isEmpty_iff] using hvalid)]
    simp only [his_hn_mismatch _ _ _ hsrc htgt]
    constructor <;> simp
  · intro src tgt samples hvalid hsrcHN hsrc htgt
    unfold analyze_column_with_sample
    rw [if_neg (by simpa [List.isEmpty_iff] using hvalid)]
    simp only [his_cid_mismatch _ _ _ hsrcHN hsrc htgt]
    constructor <;> simp

set_option maxHeartbeats 1000000 in
/-- Witness for C6 at the spec example hn→email and at the national-ID
input cid→email. -/
theorem C6_amended_domain_mismatch_witness :
    (analyze_column_with_sample "hn" "email"
      [Value.vstr "1234567", Value.vstr "9876543", Value.vstr "5555555"]).is_match
        = false ∧
    (analyze_column_with_sample "cid" "email"
      [Value.vstr "1234567890123"]).is_match = true :=
  ⟨(C6_amended_domain_mismatch.1 "hn" "email"
      [Value.vstr "1234567", Value.vstr "9876543", Value.vstr "5555555"]
      (by decide) (by decide) (by decide)).1,
   (C6_amended_domain_mismatch.2 "cid" "email" [Value.vstr "1234567890123"]
      (by decide) (by decide) (by decide) (by decide)).1⟩

/-- The Thai-year branch of `_analyze_date_patterns`: it fires when
more than half the sample matches, recommends only BUDDHIST_TO_ISO,
sets confidence to min(0.9, ratio) and stops date detection. -/
theorem date_thai_branch (ss : List String)
    (h : ((ss.filter (fun s => searchAny thaiYearAt s.data)).length : ℚ) >
      Rat.divInt ss.length 2) :
    analyze_date_patterns ss =
      { detected := true, transformers := ["BUDDHIST_TO_ISO"],
        confidence := min (Rat.divInt 9 10)
          (Rat.divInt ((ss.filter (fun s => searchAny thaiYearAt s.data)).length)
            ss.length),
        reason := "Detected Thai Buddhist year (25xx) in " ++
          toString ((ss.filter (fun s => searchAny thaiYearAt s.data)).length) ++ "/" ++
          toString ss.length ++ " samples" } := by
  unfold analyze_date_patterns
  rw [if_pos h]

set_option maxHeartbeats 2000000 in
/-- C7: when more than half the working sample matches the
Thai-Buddhist-year pattern, the analysis recommends BUDDHIST_TO_ISO,
its confidence score is at least min(0.9, match ratio), and date
detection contributes nothing else (no ENG_DATE_TO_ISO); on the spec
samples for birth_date→dob the transformer is recommended with
confidence at least 0.9. -/
theorem C7_thai_year_detection :
    (∀ (src tgt : String) (samples : List Value),
        ((thaiCount (workingSample samples) : ℚ) >
            Rat.divInt (workingSample samples).length 2) →
        "BUDDHIST_TO_ISO" ∈ (analyze_column_with_sample src tgt samples).transformers ∧
        (analyze_column_with_sample src tgt samples).confidence_score ≥
          min (Rat.divInt 9 10)
            (Rat.divInt (thaiCount (workingSample samples))
              (workingSample samples).length) ∧
        (analyze_date_patterns (workingSample samples)).transformers =
          ["BUDDHIST_TO_ISO"]) ∧
    "BUDDHIST_TO_ISO" ∈ (analyze_column_with_sample "birth_date" "dob"
      [Value.vstr "2566-05-15", Value.vstr "2567-03-20",
        Value.vstr "2565-12-01"]).transformers ∧
    Rat.divInt 9 10 ≤ (analyze_column_with_sample "birth_date" "dob"
      [Value.vstr "2566-05-15", Value.vstr "2567-03-20",
        Value.vstr "2565-12-01"]).confidence_score := by
  refine ⟨?_, by decide, by decide⟩
  intro src tgt samples h
  have hvalid : samples.filter validSampleValue ≠ [] := by
    intro hempty
    simp [workingSample, thaiCount, hempty] at h
  simp only [workingSample, thaiCount] at h ⊢
  unfold analyze_column_with_sample
  rw [if_neg (by simpa [List.isEmpty_iff] using hvalid)]
  simp only [date_thai_branch _ h]
  refine ⟨?_, ?_, by simp⟩
  · split_ifs <;> simp [dedupFirstAux]
  · split_ifs <;>
      simp only [ge_iff_le] <;>
      first
        | exact le_max_right _ _
        | exact le_trans (le_max_right _ _) (le_max_left _ _)

set_option maxHeartbeats 1000000 in
/-- Witness for C7 at a sample where two of three values carry a Thai
year (ratio 2/3). -/
theorem C7_thai_year_detection_witness :
    "BUDDHIST_TO_ISO" ∈ (analyze_column_with_sample "note" "remark"
      [Value.vstr "2560-01-01", Value.vstr "2561-02-02",
        Value.vstr "x"]).transformers ∧
    (analyze_column_with_sample "note" "remark"
      [Value.vstr "2560-01-01", Value.vstr "2561-02-02",
        Value.vstr "x"]).confidence_score ≥
      min (Rat.divInt 9 10)
        (Rat.divInt
          (thaiCount (workingSample
            [Value.vstr "2560-01-01", Value.vstr "2561-02-02", Value.vstr "x"]))
          (workingSample
            [Value.vstr "2560-01-01", Value.vstr "2561-02-02", Value.vstr "x"]).length) :=
  ⟨(C7_thai_year_detection.1 "note" "remark"
      [Value.vstr "2560-01-01", Value.vstr "2561-02-02", Value.vstr "x"]
      (by decide)).1,
   (C7_thai_year_detection.1 "note" "remark"
      [Value.vstr "2560-01-01", Value.vstr "2561-02-02", Value.vstr "x"]
      (by decide)).2.1⟩

end DbReport
